import Mathlib

/-
  Verification development for the audio-converter service.

  The conversion orchestration layer of the service is shallowly embedded
  below.  External effects are made explicit:
  * a pipe-mode external process is a function from (argument list, stdin
    bytes) to an exit flag, stdout bytes and diagnostic (stderr) text;
  * a temp-file-mode external process is a function from (argument list,
    filesystem) to an exit flag, a new filesystem and diagnostic text;
  * the filesystem is a map from paths to byte sequences.

  Byte sequences are modelled as `List Nat`; the code never computes on
  byte values, so no width bound is needed.  Diagnostic text is `List Char`
  (Go strings are byte slices; the diagnostics involved are ASCII).
-/

set_option maxHeartbeats 1000000
set_option linter.unusedVariables false

deriving instance DecidableEq for Except

namespace AudioConverter

/-- Byte sequences (payloads, process output). -/
abbrev ByteSeq := List Nat

/- ---------------------------------------------------------------------
   Duration extraction (convertAudio, the block after cmd.Run succeeds):

     outputText := errBuffer.String()
     splitTime := strings.Split(outputText, "time=")
     if len(splitTime) < 2 { return ... "duracao nao encontrada" }
     re := regexp.MustCompile("(digits):(digits):(digits.digits)")
     matches := re.FindStringSubmatch(splitTime[2])
     if len(matches) != 4 { return ... "formato de duracao nao encontrado" }
     duration := int(hours*3600 + minutes*60 + seconds)
   --------------------------------------------------------------------- -/

/-- Helper for `splitTimeMarker`: prepend a character to the first
    fragment of a split result (used when the character is not part of a
    marker occurrence). -/
def consHead (c : Char) : List (List Char) → List (List Char)
  | [] => [[c]]
  | frag :: frags => (c :: frag) :: frags

/-- Go `strings.Split(text, "time=")`: fragments of `text` around each
    leftmost non-overlapping occurrence of the five-character marker
    `time=`.  A text with k occurrences yields k+1 fragments. -/
def splitTimeMarker : List Char → List (List Char)
  | [] => [[]]
  | 't' :: 'i' :: 'm' :: 'e' :: '=' :: rest => [] :: splitTimeMarker rest
  | c :: rest => consHead c (splitTimeMarker rest)

/-- Number of (leftmost, non-overlapping) occurrences of the substring
    `time=` in a text, defined independently of the splitter. -/
def countTimeMarkers : List Char → Nat
  | [] => 0
  | 't' :: 'i' :: 'm' :: 'e' :: '=' :: rest => countTimeMarkers rest + 1
  | _ :: rest => countTimeMarkers rest

/-- Numeric value of a digit string, most significant digit first
    (strconv.ParseFloat on an all-digit group, restricted to its exact
    integer value). -/
def natOfDigits (ds : List Char) : Nat :=
  ds.foldl (fun n c => n * 10 + (c.toNat - 48)) 0

/-- One attempt of the Go regular expression
    `(\d+):(\d+):(\d+\.\d+)` anchored at the start of `cs`.  The digit
    classes and the separators are disjoint, so RE2's greedy `\d+` is
    exactly maximal munch.  Returns (hours, minutes, whole seconds): the
    fractional digits must be present but only the integer part of the
    seconds survives Go's `int(...)` truncation of the non-negative sum. -/
def parseTimestampAt (cs : List Char) : Option (Nat × Nat × Nat) :=
  let (d1, r1) := cs.span Char.isDigit
  if d1.isEmpty then none else
  match r1 with
  | ':' :: r2 =>
    let (d2, r3) := r2.span Char.isDigit
    if d2.isEmpty then none else
    match r3 with
    | ':' :: r4 =>
      let (d3, r5) := r4.span Char.isDigit
      if d3.isEmpty then none else
      match r5 with
      | '.' :: r6 =>
        let (d4, _) := r6.span Char.isDigit
        if d4.isEmpty then none
        else some (natOfDigits d1, natOfDigits d2, natOfDigits d3)
      | _ => none
    | _ => none
  | _ => none

/-- Leftmost match of the timestamp pattern in `cs`
    (regexp.FindStringSubmatch semantics: earliest start position wins). -/
def findTimestamp : List Char → Option (Nat × Nat × Nat)
  | [] => none
  | c :: rest =>
    match parseTimestampAt (c :: rest) with
    | some t => some t
    | none => findTimestamp rest

/-- Result of the duration-parsing block of convertAudio.  `notFound` and
    `formatNotFound` are the two classified errors returned by the code;
    `indexOutOfBounds` marks the Go panic raised by `splitTime[2]` when the
    split has only two elements (total embedding of a partial access). -/
inductive DurationResult where
  | ok (seconds : Nat)
  | notFound
  | formatNotFound
  | indexOutOfBounds
deriving DecidableEq

/-- Duration extraction exactly as in convertAudio: split the diagnostic
    text on `time=`, fail when fewer than two fragments, read the fragment
    at index 2 (the text after the second marker occurrence), match the
    timestamp pattern there, and return
    hours*3600 + minutes*60 + floor(seconds). -/
def extractDuration (diagnosticText : List Char) : DurationResult :=
  let splitTime := splitTimeMarker diagnosticText
  if splitTime.length < 2 then .notFound
  else
    match splitTime[2]? with
    | none => .indexOutOfBounds
    | some tail =>
      match findTimestamp tail with
      | none => .formatNotFound
      | some (h, m, s) => .ok (h * 3600 + m * 60 + s)

/- ---------------------------------------------------------------------
   Audio conversion (convertAudio): argument construction and pipe-mode
   execution.
   --------------------------------------------------------------------- -/

/-- The switch on outputFormat in convertAudio: the per-format ffmpeg
    argument template.  The final branch is the source's `default:`
    fallback (compact mono 16 kHz Opus in Ogg). -/
def audioCommandArgs (outputFormat : String) : List String :=
  if outputFormat = "mp3" then
    ["-i", "pipe:0", "-f", "mp3", "pipe:1"]
  else if outputFormat = "wav" then
    ["-i", "pipe:0", "-f", "wav", "pipe:1"]
  else if outputFormat = "aac" then
    ["-i", "pipe:0", "-c:a", "aac", "-b:a", "128k", "-f", "adts", "pipe:1"]
  else if outputFormat = "amr" then
    ["-i", "pipe:0", "-c:a", "libopencore_amrnb", "-b:a", "12.2k", "-f", "amr", "pipe:1"]
  else if outputFormat = "m4a" then
    ["-i", "pipe:0", "-c:a", "aac", "-b:a", "128k", "-f", "ipod", "pipe:1"]
  else
    ["-i", "pipe:0", "-c:a", "libopus", "-b:a", "16k", "-vbr", "on",
     "-compression_level", "10", "-ac", "1", "-ar", "16000", "-f", "ogg", "pipe:1"]

/-- The full argv built by convertAudio (exec.Command prepends the
    executable name).  The source receives inputData and inputFormat but
    its switch reads only outputFormat, so both are ignored here exactly
    as there. -/
def audioCommandLine (inputData : ByteSeq) (inputFormat outputFormat : String) :
    List String :=
  "ffmpeg" :: audioCommandArgs outputFormat

/-- Outcome of one pipe-mode external process run: exit flag, stdout
    bytes, diagnostic (stderr) text. -/
structure PipeProcResult where
  exitOk : Bool
  stdout : ByteSeq
  stderrText : List Char
deriving DecidableEq

/-- A pipe-mode external process: argv and stdin bytes in, outcome out. -/
abbrev PipeProc := List String → ByteSeq → PipeProcResult

/-- Classified failures of convertAudio.  `panicIndexOutOfBounds` is the
    Go panic from `splitTime[2]`, kept distinct from the classified
    errors. -/
inductive AudioError where
  | processFailed (details : List Char)
  | durationNotFound
  | durationFormatNotFound
  | panicIndexOutOfBounds
deriving DecidableEq

/-- Result value of convertAudio: converted bytes and duration, or a
    classified failure. -/
def convertAudioResult (proc : PipeProc) (inputData : ByteSeq)
    (inputFormat outputFormat : String) : Except AudioError (ByteSeq × Nat) :=
  let pr := proc (audioCommandLine inputData inputFormat outputFormat) inputData
  if pr.exitOk then
    match extractDuration pr.stderrText with
    | .ok d => .ok (pr.stdout, d)
    | .notFound => .error .durationNotFound
    | .formatNotFound => .error .durationFormatNotFound
    | .indexOutOfBounds => .error .panicIndexOutOfBounds
  else
    .error (.processFailed pr.stderrText)

/-- Result of convertAudio together with the number of external process
    invocations performed on the call. -/
structure AudioOutcome where
  result : Except AudioError (ByteSeq × Nat)
  spawnCount : Nat
deriving DecidableEq

/-- convertAudio: builds the argv from the output format, runs the
    process exactly once over pipes (there is no input validation before
    cmd.Run, so the spawn count is 1 on every path), then captures stdout
    and parses the duration from stderr. -/
def convertAudio (proc : PipeProc) (inputData : ByteSeq)
    (inputFormat outputFormat : String) : AudioOutcome :=
  ⟨convertAudioResult proc inputData inputFormat outputFormat, 1⟩

end AudioConverter

namespace AudioConverter

/- ---------------------------------------------------------------------
   Temp-file-mode conversions (convertGifToMp4UsingTempFiles,
   convertVideoToMp4UsingTempFiles, convertImageToPngUsingTempFiles).

   The filesystem is a map from paths to byte contents.  os.CreateTemp
   produces a fresh path and an (empty) file; the write of the payload is
   modelled together with the creation.  Creation and write failures are
   environment faults outside the embedded logic.  The two deferred
   os.Remove calls of each routine run after the body on every exit path,
   which the embedding renders by applying the cleanup to the body's
   final filesystem.
   --------------------------------------------------------------------- -/

/-- A filesystem: paths to file contents. -/
abbrev FS := String → Option ByteSeq

/-- Create or overwrite a file. -/
def fsWrite (fs : FS) (path : String) (data : ByteSeq) : FS :=
  fun q => if q = path then some data else fs q

/-- os.Remove: delete a path (no-op when absent, the code ignores the
    returned error). -/
def fsRemove (fs : FS) (path : String) : FS :=
  fun q => if q = path then none else fs q

/-- The two deferred removals of a temp-file routine (LIFO order: the
    output artifact's defer was registered last, so it runs first). -/
def cleanupTempArtifacts (fs : FS) (inputPath outputPath : String) : FS :=
  fsRemove (fsRemove fs outputPath) inputPath

/-- Outcome of one temp-file-mode external process run: exit flag, the
    filesystem after the run, diagnostic text. -/
structure FsProcResult where
  exitOk : Bool
  fs : FS
  stderrText : List Char

/-- A temp-file-mode external process: argv and filesystem in, outcome
    out (the real process reads the input path and writes the output
    path; nothing is assumed here). -/
abbrev FsProc := List String → FS → FsProcResult

/-- Classified failures of the temp-file conversion routines. -/
inductive TempConvError where
  | emptyInput
  | statInputFailed
  | processFailed (details : List Char)
  | statOutputFailed
  | emptyOutput
deriving DecidableEq

/-- Result of a temp-file routine together with its final filesystem and
    the number of external process invocations performed. -/
structure TempConvOutcome where
  result : Except TempConvError ByteSeq
  fs : FS
  spawnCount : Nat

/-- The ffmpeg argv of convertGifToMp4UsingTempFiles. -/
def gifToMp4Args (inputPath outputPath : String) : List String :=
  ["ffmpeg", "-i", inputPath, "-movflags", "faststart", "-pix_fmt", "yuv420p",
   "-vf", "scale=trunc(iw/2)*2:trunc(ih/2)*2", "-f", "mp4", "-c:v", "libx264",
   "-preset", "ultrafast", "-crf", "23", "-y", outputPath]

/-- The ffmpeg argv of convertVideoToMp4UsingTempFiles. -/
def videoToMp4Args (inputPath outputPath : String) : List String :=
  ["ffmpeg", "-i", inputPath, "-movflags", "faststart", "-pix_fmt", "yuv420p",
   "-c:v", "libx264", "-preset", "ultrafast", "-crf", "23",
   "-c:a", "aac", "-b:a", "128k", "-y", outputPath]

/-- The ffmpeg argv of convertImageToPngUsingTempFiles. -/
def imageToPngArgs (inputPath outputPath : String) : List String :=
  ["ffmpeg", "-i", inputPath, "-f", "image2", "-c:v", "png", "-y", outputPath]

/-- Body of a temp-file routine, before the deferred removals run: stage
    the payload at `inputPath`, create the (empty) output artifact, stat
    the input, run the process once, stat and read the output artifact,
    and reject an empty output.  Shared by the GIF, video and image
    routines, which differ only in the argv they pass. -/
def tempFileBody (proc : FsProc) (args : List String)
    (inputPath outputPath : String) (inputData : ByteSeq) (fs : FS) :
    TempConvOutcome :=
  let fs1 := fsWrite fs inputPath inputData
  let fs2 := fsWrite fs1 outputPath []
  match fs2 inputPath with
  | none => ⟨.error .statInputFailed, fs2, 0⟩
  | some _ =>
    let pr := proc args fs2
    if pr.exitOk then
      match pr.fs outputPath with
      | none => ⟨.error .statOutputFailed, pr.fs, 1⟩
      | some outData =>
        if outData.length = 0 then ⟨.error .emptyOutput, pr.fs, 1⟩
        else ⟨.ok outData, pr.fs, 1⟩
    else ⟨.error (.processFailed pr.stderrText), pr.fs, 1⟩

/-- convertGifToMp4UsingTempFiles: body, then the deferred removal of
    both artifacts on every exit path. -/
def convertGifToMp4UsingTempFiles (proc : FsProc) (inputPath outputPath : String)
    (inputData : ByteSeq) (fs : FS) : TempConvOutcome :=
  let body := tempFileBody proc (gifToMp4Args inputPath outputPath)
    inputPath outputPath inputData fs
  ⟨body.result, cleanupTempArtifacts body.fs inputPath outputPath, body.spawnCount⟩

/-- convertGifToMp4: rejects an empty payload before any temp file or
    process, otherwise always delegates to the temp-file routine (the
    source comment: MP4 needs seeking, impossible over pipes). -/
def convertGifToMp4 (proc : FsProc) (inputPath outputPath : String)
    (inputData : ByteSeq) (fs : FS) : TempConvOutcome :=
  if inputData.length = 0 then ⟨.error .emptyInput, fs, 0⟩
  else convertGifToMp4UsingTempFiles proc inputPath outputPath inputData fs

/-- convertVideoToMp4UsingTempFiles.  `inputFormat` only decorates the
    temp file's name suffix in the source; the argv does not use it. -/
def convertVideoToMp4UsingTempFiles (proc : FsProc) (inputFormat : String)
    (inputPath outputPath : String) (inputData : ByteSeq) (fs : FS) :
    TempConvOutcome :=
  let body := tempFileBody proc (videoToMp4Args inputPath outputPath)
    inputPath outputPath inputData fs
  ⟨body.result, cleanupTempArtifacts body.fs inputPath outputPath, body.spawnCount⟩

/-- convertVideoToMp4: no input validation; always delegates to the
    temp-file routine. -/
def convertVideoToMp4 (proc : FsProc) (inputFormat : String)
    (inputPath outputPath : String) (inputData : ByteSeq) (fs : FS) :
    TempConvOutcome :=
  convertVideoToMp4UsingTempFiles proc inputFormat inputPath outputPath inputData fs

/-- convertImageToPngUsingTempFiles. -/
def convertImageToPngUsingTempFiles (proc : FsProc) (inputPath outputPath : String)
    (inputData : ByteSeq) (fs : FS) : TempConvOutcome :=
  let body := tempFileBody proc (imageToPngArgs inputPath outputPath)
    inputPath outputPath inputData fs
  ⟨body.result, cleanupTempArtifacts body.fs inputPath outputPath, body.spawnCount⟩

/-- convertImageToPng: no input validation; always delegates to the
    temp-file routine (the source comment: always use temp files for
    image conversion). -/
def convertImageToPng (proc : FsProc) (inputPath outputPath : String)
    (inputData : ByteSeq) (fs : FS) : TempConvOutcome :=
  convertImageToPngUsingTempFiles proc inputPath outputPath inputData fs

/- ---------------------------------------------------------------------
   The dispatch: which execution strategy each supported conversion
   target uses, together with the argv it builds.
   --------------------------------------------------------------------- -/

/-- The execution strategies of the service. -/
inductive IoMode where
  | pipe
  | tempFile
deriving DecidableEq

/-- An execution plan: the argv handed to the external transcoder and the
    strategy used to exchange data with it. -/
structure ExecutionPlan where
  executableArgs : List String
  ioMode : IoMode
deriving DecidableEq

/-- The supported conversion targets of the service: the audio outputs of
    convertAudio (any tag, unrecognized ones fall back), and the three
    fixed video/image targets. -/
inductive ConversionTarget where
  | audio (outputFormat : String)
  | mp4FromGif
  | mp4FromVideo
  | pngFromImage
deriving DecidableEq

/-- The plan each conversion routine realizes: convertAudio wires
    pipe:0/pipe:1 (Pipe mode); convertGifToMp4, convertVideoToMp4 and
    convertImageToPng all delegate unconditionally to their temp-file
    routines (TempFile mode). -/
def planOf (target : ConversionTarget) (inputPath outputPath : String) :
    ExecutionPlan :=
  match target with
  | .audio outputFormat => ⟨"ffmpeg" :: audioCommandArgs outputFormat, .pipe⟩
  | .mp4FromGif => ⟨gifToMp4Args inputPath outputPath, .tempFile⟩
  | .mp4FromVideo => ⟨videoToMp4Args inputPath outputPath, .tempFile⟩
  | .pngFromImage => ⟨imageToPngArgs inputPath outputPath, .tempFile⟩

/-- Modelled from the spec: the seek-requiring output set of the
    specification, the MP4-family containers (mp4-from-gif and
    mp4-from-video); simple audio containers and the single-frame image
    container are outside it.  Used to compare the spec's dispatch policy
    with the code's. -/
def specSeekRequiringSet : ConversionTarget → Bool
  | .mp4FromGif => true
  | .mp4FromVideo => true
  | _ => false

end AudioConverter

namespace AudioConverter

/- ---------------------------------------------------------------------
   Helper lemmas.
   --------------------------------------------------------------------- -/

/-- The deferred removals always leave the input artifact absent. -/
theorem cleanupTempArtifacts_fst (fs : FS) (p q : String) :
    cleanupTempArtifacts fs p q p = none := by
  simp [cleanupTempArtifacts, fsRemove]

/-- The deferred removals always leave the output artifact absent. -/
theorem cleanupTempArtifacts_snd (fs : FS) (p q : String) :
    cleanupTempArtifacts fs p q q = none := by
  by_cases h : q = p <;> simp [cleanupTempArtifacts, fsRemove, h]

/-- The staged input artifact is present when the body stats it, so the
    body always reaches the process invocation: spawn count 1. -/
theorem tempFileBody_spawnCount (proc : FsProc) (args : List String)
    (inputPath outputPath : String) (inputData : ByteSeq) (fs : FS) :
    (tempFileBody proc args inputPath outputPath inputData fs).spawnCount = 1 := by
  have h2 : (fsWrite (fsWrite fs inputPath inputData) outputPath []) inputPath ≠ none := by
    by_cases h : inputPath = outputPath <;> simp [fsWrite, h]
  unfold tempFileBody
  dsimp only
  split
  · exact absurd (by assumption) h2
  · split
    · split
      · rfl
      · split <;> rfl
    · rfl

/-- A body result of `.ok out` comes only from the non-empty-output
    branch. -/
theorem tempFileBody_ok_nonempty (proc : FsProc) (args : List String)
    (inputPath outputPath : String) (inputData : ByteSeq) (fs : FS)
    (out : ByteSeq)
    (h : (tempFileBody proc args inputPath outputPath inputData fs).result = .ok out) :
    out ≠ [] := by
  unfold tempFileBody at h
  dsimp only at h
  split at h
  · simp at h
  · split at h
    · split at h
      · simp at h
      · split at h
        · simp at h
        · rename_i hlen
          simp only [Except.ok.injEq] at h
          subst h
          intro hc
          subst hc
          simp at hlen
    · simp at h

end AudioConverter

namespace AudioConverter

/-- `consHead` never produces the empty list. -/
theorem consHead_ne_nil (c : Char) (l : List (List Char)) : consHead c l ≠ [] := by
  cases l <;> simp [consHead]

/-- `consHead` preserves the length of a non-empty split result. -/
theorem consHead_length (c : Char) (l : List (List Char)) (h : l ≠ []) :
    (consHead c l).length = l.length := by
  cases l with
  | nil => exact absurd rfl h
  | cons a as => simp [consHead]

/-- The splitter never returns an empty fragment list. -/
theorem splitTimeMarker_ne_nil (text : List Char) : splitTimeMarker text ≠ [] := by
  induction text using splitTimeMarker.induct <;>
    simp_all [splitTimeMarker, consHead_ne_nil]

/-- A text with k marker occurrences splits into k+1 fragments (the Go
    strings.Split contract). -/
theorem splitTimeMarker_length_eq (text : List Char) :
    (splitTimeMarker text).length = countTimeMarkers text + 1 := by
  induction text using splitTimeMarker.induct <;>
    simp_all [splitTimeMarker, countTimeMarkers, consHead_length, splitTimeMarker_ne_nil]

end AudioConverter

namespace AudioConverter

/- ---------------------------------------------------------------------
   Claim theorems.
   --------------------------------------------------------------------- -/

/-- C1 counterexample: the single-frame image target (png-from-image) is
    not in the spec's seek-requiring (MP4-family) set, yet its plan's
    ioMode is TempFile, so the claimed equivalence fails there. -/
theorem claim_C1_counterexample :
    ¬ ((planOf .pngFromImage "input-1" "output-1.png").ioMode = .tempFile ↔
        specSeekRequiringSet .pngFromImage = true) := by
  decide

/-- C1 (amended): for every supported conversion target and temp paths,
    the plan's ioMode is TempFile if and only if the target is one of the
    three video/image conversions (mp4-from-gif, mp4-from-video,
    png-from-image); every audio target uses Pipe mode. -/
theorem claim_C1_amended :
    ∀ (target : ConversionTarget) (inputPath outputPath : String),
      (planOf target inputPath outputPath).ioMode = .tempFile ↔
        (target = .mp4FromGif ∨ target = .mp4FromVideo ∨ target = .pngFromImage) := by
  intro target inputPath outputPath
  cases target <;> simp [planOf]

/-- C2 counterexample: the audio conversion spawns the external process
    even for a zero-length input payload (spawn count 1, not 0); there is
    no input validation in convertAudio. -/
theorem claim_C2_counterexample :
    (convertAudio (fun _ _ => ⟨false, [], []⟩) [] "ogg" "ogg").spawnCount = 1 ∧
    (convertAudio (fun _ _ => ⟨false, [], []⟩) [] "ogg" "ogg").spawnCount ≠ 0 := by
  exact ⟨rfl, by decide⟩

/-- C2 (amended): only the GIF-to-MP4 conversion rejects a zero-length
    payload with a classified input error before any process is spawned
    (spawn count 0); the audio, video-to-MP4 and image-to-PNG conversions
    invoke the external process even on an empty payload (spawn count 1). -/
theorem claim_C2_amended :
    ∀ (fproc : FsProc) (pproc : PipeProc) (inputPath outputPath : String)
      (fs : FS) (inputFormat outputFormat videoInputFormat : String),
      ((convertGifToMp4 fproc inputPath outputPath [] fs).spawnCount = 0 ∧
       (convertGifToMp4 fproc inputPath outputPath [] fs).result = .error .emptyInput) ∧
      (convertAudio pproc [] inputFormat outputFormat).spawnCount = 1 ∧
      (convertVideoToMp4 fproc videoInputFormat inputPath outputPath [] fs).spawnCount = 1 ∧
      (convertImageToPng fproc inputPath outputPath [] fs).spawnCount = 1 := by
  intro fproc pproc inputPath outputPath fs inputFormat outputFormat videoInputFormat
  refine ⟨⟨rfl, rfl⟩, rfl, ?_, ?_⟩
  · simpa [convertVideoToMp4, convertVideoToMp4UsingTempFiles] using
      tempFileBody_spawnCount fproc (videoToMp4Args inputPath outputPath)
        inputPath outputPath [] fs
  · simpa [convertImageToPng, convertImageToPngUsingTempFiles] using
      tempFileBody_spawnCount fproc (imageToPngArgs inputPath outputPath)
        inputPath outputPath [] fs

/-- C3 counterexample: a diagnostic text containing the marker
    time=01:02:03.50 exactly once does not yield 3723 — the index-2
    access on the two-fragment split is out of bounds; and with three
    increasing markers the extractor returns the timestamp after the
    second occurrence (2), not the last one (3). -/
theorem claim_C3_counterexample :
    extractDuration "time=01:02:03.50".toList = .indexOutOfBounds ∧
    extractDuration "time=00:00:01.00 time=00:00:02.00 time=00:00:03.00".toList =
      .ok 2 := by
  constructor <;> decide

/-- C3 (amended): a diagnostic text with no time= token fails with the
    classified duration error; the extractor otherwise reads the split
    fragment at index 2 — the text following the second marker occurrence,
    not the last — so a text carrying time=01:02:03.50 twice yields
    hours*3600 + minutes*60 + floor(seconds) = 3723. -/
theorem claim_C3_amended (text : List Char) (h : countTimeMarkers text = 0) :
    extractDuration text = .notFound ∧
    extractDuration "begin time=01:02:03.50 middle time=01:02:03.50 end".toList =
      .ok 3723 := by
  constructor
  · have hlen : (splitTimeMarker text).length = 1 := by
      rw [splitTimeMarker_length_eq, h]
    unfold extractDuration
    simp [hlen]
  · decide

/-- C3 witness: the amended theorem instantiated at a concrete markerless
    text. -/
theorem claim_C3_witness :
    countTimeMarkers "no markers here".toList = 0 ∧
    (extractDuration "no markers here".toList = .notFound ∧
     extractDuration "begin time=01:02:03.50 middle time=01:02:03.50 end".toList =
       .ok 3723) :=
  ⟨by decide, claim_C3_amended "no markers here".toList (by decide)⟩

end AudioConverter

namespace AudioConverter

/-- C4 counterexample: an external process that exits successfully with
    non-empty output but no duration marker in its diagnostics makes
    convertAudio return an error — the converted bytes are discarded, so
    a duration-extraction failure does abort the conversion. -/
theorem claim_C4_counterexample :
    (convertAudio (fun _ _ => ⟨true, [9, 9], []⟩) [1] "ogg" "mp3").result =
      .error .durationNotFound := by
  decide

/-- C4 (amended): for every audio conversion whose external process exits
    successfully, a failure to extract the duration aborts the overall
    result in both failure modes: a missing marker makes convertAudio
    return the classified not-found error, and a present but malformed
    marker the classified format error — in either case the caller
    receives an error, never the converted output bytes. -/
theorem claim_C4_amended (proc : PipeProc) (inputData : ByteSeq)
    (inputFormat outputFormat : String)
    (hExit : (proc (audioCommandLine inputData inputFormat outputFormat)
        inputData).exitOk = true) :
    (extractDuration (proc (audioCommandLine inputData inputFormat
        outputFormat) inputData).stderrText = .notFound →
      (convertAudio proc inputData inputFormat outputFormat).result =
        .error .durationNotFound) ∧
    (extractDuration (proc (audioCommandLine inputData inputFormat
        outputFormat) inputData).stderrText = .formatNotFound →
      (convertAudio proc inputData inputFormat outputFormat).result =
        .error .durationFormatNotFound) := by
  constructor <;> intro hDur <;>
    simp [convertAudio, convertAudioResult, hExit, hDur]

/-- C4 witness: the amended theorem instantiated at two processes with a
    successful exit and non-empty stdout — one with markerless
    diagnostics (marker absent), one whose diagnostics carry two time=
    markers but no well-formed timestamp after the second (marker
    malformed). -/
theorem claim_C4_witness :
    ((fun (_ : List String) (_ : ByteSeq) => PipeProcResult.mk true [9] [])
        (audioCommandLine [2] "ogg" "wav") [2]).exitOk = true ∧
    extractDuration (((fun (_ : List String) (_ : ByteSeq) =>
        PipeProcResult.mk true [9] []) (audioCommandLine [2] "ogg" "wav")
        [2]).stderrText) = .notFound ∧
    (convertAudio (fun _ _ => PipeProcResult.mk true [9] []) [2] "ogg" "wav").result =
      .error .durationNotFound ∧
    ((fun (_ : List String) (_ : ByteSeq) =>
        PipeProcResult.mk true [9] "time=x time=y".toList)
        (audioCommandLine [2] "ogg" "wav") [2]).exitOk = true ∧
    extractDuration (((fun (_ : List String) (_ : ByteSeq) =>
        PipeProcResult.mk true [9] "time=x time=y".toList)
        (audioCommandLine [2] "ogg" "wav") [2]).stderrText) = .formatNotFound ∧
    (convertAudio (fun _ _ => PipeProcResult.mk true [9] "time=x time=y".toList)
        [2] "ogg" "wav").result = .error .durationFormatNotFound :=
  ⟨rfl, by decide,
    (claim_C4_amended (fun _ _ => PipeProcResult.mk true [9] []) [2] "ogg" "wav"
      rfl).1 (by decide),
    rfl, by decide,
    (claim_C4_amended (fun _ _ => PipeProcResult.mk true [9] "time=x time=y".toList)
      [2] "ogg" "wav" rfl).2 (by decide)⟩

/-- C5 counterexample: an audio conversion whose process exits
    successfully with zero output bytes (and valid duration diagnostics)
    is reported as a success carrying empty output — convertAudio has no
    empty-output check. -/
theorem claim_C5_counterexample :
    (convertAudio (fun _ _ => ⟨true, [], "time=a time=00:00:02.00 b".toList⟩)
        [5] "ogg" "mp3").result = .ok ([], 2) := by
  decide

/-- C5 (amended): the GIF-to-MP4, video-to-MP4 and image-to-PNG
    conversions never report success with empty output bytes (a
    degenerate success is turned into a failure); the audio conversion
    lacks this guarantee. -/
theorem claim_C5_amended :
    ∀ (proc : FsProc) (inputFormat inputPath outputPath : String)
      (inputData : ByteSeq) (fs : FS) (out : ByteSeq),
      ((convertGifToMp4UsingTempFiles proc inputPath outputPath inputData fs).result =
          .ok out → out ≠ []) ∧
      ((convertVideoToMp4 proc inputFormat inputPath outputPath inputData fs).result =
          .ok out → out ≠ []) ∧
      ((convertImageToPng proc inputPath outputPath inputData fs).result =
          .ok out → out ≠ []) := by
  intro proc inputFormat inputPath outputPath inputData fs out
  refine ⟨fun h => ?_, fun h => ?_, fun h => ?_⟩
  · exact tempFileBody_ok_nonempty proc (gifToMp4Args inputPath outputPath)
      inputPath outputPath inputData fs out
      (by simpa [convertGifToMp4UsingTempFiles] using h)
  · exact tempFileBody_ok_nonempty proc (videoToMp4Args inputPath outputPath)
      inputPath outputPath inputData fs out
      (by simpa [convertVideoToMp4, convertVideoToMp4UsingTempFiles] using h)
  · exact tempFileBody_ok_nonempty proc (imageToPngArgs inputPath outputPath)
      inputPath outputPath inputData fs out
      (by simpa [convertImageToPng, convertImageToPngUsingTempFiles] using h)

/-- C5 witness: the amended theorem instantiated at a process that writes
    the byte 7 to the output artifact. -/
theorem claim_C5_witness :
    (convertGifToMp4UsingTempFiles
        (fun _ fs => ⟨true, fsWrite fs "out.mp4" [7], []⟩)
        "in.gif" "out.mp4" [1] (fun _ => none)).result = .ok [7] ∧
    ([7] : ByteSeq) ≠ [] :=
  ⟨by rfl,
    (claim_C5_amended (fun _ fs => ⟨true, fsWrite fs "out.mp4" [7], []⟩)
        "gif" "in.gif" "out.mp4" [1] (fun _ => none) [7]).1 (by rfl)⟩

end AudioConverter

namespace AudioConverter

/-- C6 (confirmed): on a diagnostic text in which the substring time=
    occurs exactly once, the split has two fragments, the index-2 access
    performed by the duration-parsing step is out of bounds — in this
    total embedding it yields none, and the extractor reports the panic
    marker rather than a parsed duration or a classified error. -/
theorem claim_C6 (text : List Char) (h : countTimeMarkers text = 1) :
    (splitTimeMarker text).length = 2 ∧
    (splitTimeMarker text)[2]? = none ∧
    extractDuration text = .indexOutOfBounds := by
  have hlen : (splitTimeMarker text).length = 2 := by
    rw [splitTimeMarker_length_eq, h]
  have hnone : (splitTimeMarker text)[2]? = none := by
    rw [List.getElem?_eq_none_iff]
    omega
  refine ⟨hlen, hnone, ?_⟩
  unfold extractDuration
  simp [hlen, hnone]

/-- C6 witness: the theorem instantiated at a text with a single marker
    occurrence. -/
theorem claim_C6_witness :
    countTimeMarkers "time=x".toList = 1 ∧
    ((splitTimeMarker "time=x".toList).length = 2 ∧
     (splitTimeMarker "time=x".toList)[2]? = none ∧
     extractDuration "time=x".toList = .indexOutOfBounds) :=
  ⟨by decide, claim_C6 "time=x".toList (by decide)⟩

/-- C7 counterexample: a process that echoes its input bytes to its
    output stream (with empty diagnostics) does not round-trip — the
    conversion returns a duration error instead of the input bytes. -/
theorem claim_C7_counterexample :
    (convertAudio (fun _ input => ⟨true, input, []⟩) [1, 2, 3] "ogg" "mp3").result =
      .error .durationNotFound := by
  decide

/-- C7 (amended): if the pipe-mode external process echoes its input to
    its output stream, exits successfully, and its diagnostic stream
    yields a parseable duration, the conversion returns exactly the input
    byte sequence (with that duration); without parseable diagnostics the
    echoed bytes are discarded with a duration error. -/
theorem claim_C7_amended (proc : PipeProc) (inputData : ByteSeq)
    (inputFormat outputFormat : String) (d : Nat)
    (hExit : (proc (audioCommandLine inputData inputFormat outputFormat)
        inputData).exitOk = true)
    (hEcho : (proc (audioCommandLine inputData inputFormat outputFormat)
        inputData).stdout = inputData)
    (hDur : extractDuration (proc (audioCommandLine inputData inputFormat
        outputFormat) inputData).stderrText = .ok d) :
    (convertAudio proc inputData inputFormat outputFormat).result =
      .ok (inputData, d) := by
  simp [convertAudio, convertAudioResult, hExit, hEcho, hDur]

/-- C7 witness: the amended theorem instantiated at an echo process whose
    diagnostics carry two time= markers. -/
theorem claim_C7_witness :
    ((fun (_ : List String) (input : ByteSeq) =>
        PipeProcResult.mk true input "time=a time=00:00:02.00 b".toList)
        (audioCommandLine [1, 2, 3] "ogg" "mp3") [1, 2, 3]).exitOk = true ∧
    ((fun (_ : List String) (input : ByteSeq) =>
        PipeProcResult.mk true input "time=a time=00:00:02.00 b".toList)
        (audioCommandLine [1, 2, 3] "ogg" "mp3") [1, 2, 3]).stdout = [1, 2, 3] ∧
    extractDuration (((fun (_ : List String) (input : ByteSeq) =>
        PipeProcResult.mk true input "time=a time=00:00:02.00 b".toList)
        (audioCommandLine [1, 2, 3] "ogg" "mp3") [1, 2, 3]).stderrText) = .ok 2 ∧
    (convertAudio (fun _ input =>
        PipeProcResult.mk true input "time=a time=00:00:02.00 b".toList)
        [1, 2, 3] "ogg" "mp3").result = .ok ([1, 2, 3], 2) :=
  ⟨rfl, rfl, by decide,
    claim_C7_amended (fun _ input =>
        PipeProcResult.mk true input "time=a time=00:00:02.00 b".toList)
      [1, 2, 3] "ogg" "mp3" 2 rfl rfl (by decide)⟩

/-- C8 (confirmed): for every temp-file-mode conversion routine, external
    process behavior and initial filesystem, both the temporary input
    artifact and the temporary output artifact are absent from the
    filesystem when the routine returns, on every exit path, success or
    failure. -/
theorem claim_C8 :
    ∀ (proc : FsProc) (inputFormat inputPath outputPath : String)
      (inputData : ByteSeq) (fs : FS),
      ((convertGifToMp4UsingTempFiles proc inputPath outputPath inputData fs).fs
          inputPath = none ∧
       (convertGifToMp4UsingTempFiles proc inputPath outputPath inputData fs).fs
          outputPath = none) ∧
      ((convertVideoToMp4UsingTempFiles proc inputFormat inputPath outputPath
          inputData fs).fs inputPath = none ∧
       (convertVideoToMp4UsingTempFiles proc inputFormat inputPath outputPath
          inputData fs).fs outputPath = none) ∧
      ((convertImageToPngUsingTempFiles proc inputPath outputPath inputData fs).fs
          inputPath = none ∧
       (convertImageToPngUsingTempFiles proc inputPath outputPath inputData fs).fs
          outputPath = none) := by
  intro proc inputFormat inputPath outputPath inputData fs
  refine ⟨⟨?_, ?_⟩, ⟨?_, ?_⟩, ⟨?_, ?_⟩⟩ <;>
    simp [convertGifToMp4UsingTempFiles, convertVideoToMp4UsingTempFiles,
      convertImageToPngUsingTempFiles, cleanupTempArtifacts_fst,
      cleanupTempArtifacts_snd]

/-- C9 (confirmed): every output format tag outside the recognized audio
    set resolves to the default compact audio profile (mono 16 kHz
    low-bitrate Opus in Ogg) instead of failing dispatch. -/
theorem claim_C9 (outputFormat : String)
    (h : outputFormat ∉ ["mp3", "wav", "aac", "amr", "m4a"]) :
    audioCommandArgs outputFormat =
      ["-i", "pipe:0", "-c:a", "libopus", "-b:a", "16k", "-vbr", "on",
       "-compression_level", "10", "-ac", "1", "-ar", "16000", "-f", "ogg",
       "pipe:1"] := by
  simp only [List.mem_cons, List.not_mem_nil, or_false, not_or] at h
  obtain ⟨h1, h2, h3, h4, h5⟩ := h
  simp [audioCommandArgs, h1, h2, h3, h4, h5]

/-- C9 witness: the theorem instantiated at the unrecognized tag flac. -/
theorem claim_C9_witness :
    "flac" ∉ ["mp3", "wav", "aac", "amr", "m4a"] ∧
    audioCommandArgs "flac" =
      ["-i", "pipe:0", "-c:a", "libopus", "-b:a", "16k", "-vbr", "on",
       "-compression_level", "10", "-ac", "1", "-ar", "16000", "-f", "ogg",
       "pipe:1"] :=
  ⟨by decide, claim_C9 "flac" (by decide)⟩

/-- C10 (confirmed): the external-process argument list built by the
    audio conversion is a function of the declared output format alone —
    two requests with the same output tag get identical argument lists
    whatever their input bytes or declared input formats. -/
theorem claim_C10 :
    ∀ (outputFormat : String) (inputData1 inputData2 : ByteSeq)
      (inputFormat1 inputFormat2 : String),
      audioCommandLine inputData1 inputFormat1 outputFormat =
        audioCommandLine inputData2 inputFormat2 outputFormat := by
  intro outputFormat inputData1 inputData2 inputFormat1 inputFormat2
  rfl

end AudioConverter
